import Mathlib

/-!
Verification development for the real-estate admin backend's view-counter
and dashboard stats cache.

The definitions below are a shallow embedding of:
* `src/routes/property_views.js` — the POST `/:id` (recordView) and
  GET `/:id` (getViewCount) handlers;
* the `public.property_views` table DDL together with the unique index
  `unique_ip_view_24h (property_id, ip_address, viewed_date)` from the
  repository's SQL schema;
* `src/routes/dashboard.js` — the `/stats` handler and its module-level
  `statsCache` slot;
* `src/index.js` — the mounting of the property-views router without the
  authentication middleware.

The record store (Supabase/PostgREST) itself is external to the repository;
its insert and count primitives are modelled per the spec's record-store
collaborator contract (insert-with-uniqueness-conflict-detection,
count-with-equality-filter), instantiated with the table definition from the
repository's own DDL.  The row-level-security layer is declared out of scope
by the spec and is not modelled.
-/

namespace RealEstate

/-- A column value as sent in a PostgREST insert payload: a string value or
SQL NULL.  (The JS route sends either strings or `null`.) -/
inductive ColValue
  | str (v : String)
  | null
deriving DecidableEq, Repr

/-- One row of `public.property_views`, per the DDL:
`id uuid NOT NULL DEFAULT uuid_generate_v4()`, `property_id uuid NOT NULL`,
`profiles_id uuid` (nullable), `viewed_at timestamptz NOT NULL DEFAULT now()`,
`ip_address text NOT NULL`, `viewed_date date NOT NULL`. -/
structure PVRow where
  id : String
  property_id : String
  profiles_id : Option String
  viewed_at : String
  ip_address : String
  viewed_date : String
deriving DecidableEq, Repr

/-- The persisted `property_views` table, as a list of rows. -/
abbrev PVStore := List PVRow

/-- Errors the record store can report on an insert. -/
inductive StoreError
  | unknownColumn
  | notNullViolation
  | uniqueViolation
deriving DecidableEq, Repr

/-- Two rows collide on the unique index `unique_ip_view_24h`, which covers
`(property_id, ip_address, viewed_date)`. -/
def sameTriple (a b : PVRow) : Bool :=
  a.property_id = b.property_id && a.ip_address = b.ip_address &&
    a.viewed_date = b.viewed_date

/-- Storage-layer insert of a complete row: rejected with a uniqueness
violation when some stored row matches the new row on
`(property_id, ip_address, viewed_date)` (the unique index
`unique_ip_view_24h`), appended otherwise. -/
def storeInsertRow (r : PVRow) (s : PVStore) : Except StoreError PVStore :=
  if s.any (fun x => sameTriple x r) then .error .uniqueViolation
  else .ok (s ++ [r])

/-- Columns of `public.property_views`, from the CREATE TABLE statement. -/
def pvTableColumns : List String :=
  ["id", "property_id", "profiles_id", "viewed_at", "ip_address", "viewed_date"]

/-- The NOT NULL columns of `public.property_views` that have no default:
`id` and `viewed_at` have defaults, `profiles_id` is nullable, leaving
`property_id`, `ip_address` and `viewed_date`, which an insert must supply. -/
def pvRequiredColumns : List String :=
  ["property_id", "ip_address", "viewed_date"]

/-- An insert payload: association list from column names to values, the
shape of the object literal the route hands to `.insert([...])`. -/
abbrev InsertPayload := List (String × ColValue)

/-- Whether the payload supplies a non-null value for column `c`. -/
def providedNonNull (p : InsertPayload) (c : String) : Bool :=
  match p.lookup c with
  | some (.str _) => true
  | _ => false

/-- The string value the payload supplies for column `c` (only consulted
after `providedNonNull` has been checked). -/
def strVal (p : InsertPayload) (c : String) : String :=
  match p.lookup c with
  | some (.str v) => v
  | _ => ""

/-- JavaScript's `String.prototype.trim()`: strip leading and trailing
whitespace. -/
def jsTrim (s : String) : String :=
  ⟨((s.data.dropWhile Char.isWhitespace).reverse.dropWhile
      Char.isWhitespace).reverse⟩

/-- Postgres cast of an ISO-8601 timestamp string to `date`: the part before
the `T` separator. -/
def castToDate (s : String) : String :=
  ⟨s.data.takeWhile (fun c => c ≠ 'T')⟩

/-- Store-generated values for an insert: the `uuid_generate_v4()` default
for `id` and the `timezone('utc', now())` default for `viewed_at`. -/
structure StoreEnv where
  genId : String
  storeNow : String
deriving Repr

/-- Insert of a payload into `public.property_views`, per the DDL: a payload
column that is not a table column is rejected; a missing (or null) value for
a NOT NULL column without default is rejected; otherwise the row is built
(defaults filling `id` and `viewed_at`, the `viewed_date` value cast to
`date`) and handed to the storage-layer insert, which enforces the unique
index. -/
def tableInsert (env : StoreEnv) (p : InsertPayload) (s : PVStore) :
    Except StoreError PVStore :=
  if ¬ (p.all (fun kv => pvTableColumns.contains kv.1)) then
    .error .unknownColumn
  else if ¬ (pvRequiredColumns.all (fun c => providedNonNull p c)) then
    .error .notNullViolation
  else
    storeInsertRow
      { id := match p.lookup "id" with
          | some (.str v) => v
          | _ => env.genId
        property_id := strVal p "property_id"
        profiles_id := match p.lookup "profiles_id" with
          | some (.str v) => some v
          | _ => none
        viewed_at := match p.lookup "viewed_at" with
          | some (.str v) => v
          | _ => env.storeNow
        ip_address := strVal p "ip_address"
        viewed_date := castToDate (strVal p "viewed_date") } s

/-- The count query both handlers issue:
`.select('*', { count: 'exact', head: true }).eq('property_id', propertyId)`
— the number of stored rows whose `property_id` equals `propertyId`. -/
def countViews (propertyId : String) (s : PVStore) : Nat :=
  (s.filter (fun r => r.property_id = propertyId)).length

/-- The authenticated-user information `req.user` would carry
(`req.user.userId` is what the route reads). -/
structure UserInfo where
  userId : String
deriving DecidableEq, Repr

/-- A request as the property-views handlers see it: the `:id` path
parameter and the optional `req.user`. -/
structure RVRequest where
  id : String
  user : Option UserInfo
deriving DecidableEq, Repr

/-- HTTP responses of the property-views handlers:
400 `Invalid property ID`, 500 `Failed to record property view` /
`Failed to fetch property view count`, or 200 `{success:true,data:{count}}`. -/
inductive RVResponse
  | badRequest
  | serverError
  | ok (count : Nat)
deriving DecidableEq, Repr

/-- A store operation issued by a handler, for stating which store calls a
request triggers. -/
inductive StoreOp
  | insertOp (p : InsertPayload)
  | countOp (propertyId : String)
deriving DecidableEq, Repr

/-- Result of running a handler: the response, the store afterwards, and the
trace of store operations the handler issued. -/
structure RVResult where
  response : RVResponse
  store : PVStore
  ops : List StoreOp
deriving DecidableEq, Repr

/-- The value the route puts in the `user_id` field:
`req.user ? req.user.userId : null`. -/
def userIdVal (u : Option UserInfo) : ColValue :=
  match u with
  | some user => .str user.userId
  | none => .null

/-- The insert payload the POST handler builds:
`{ property_id: propertyId, viewed_date: new Date().toISOString(),
user_id: req.user ? req.user.userId : null }`.  `nowIso` is the value of
`new Date().toISOString()` at the call. -/
def recordViewPayload (propertyId nowIso : String) (u : Option UserInfo) :
    InsertPayload :=
  [("property_id", .str propertyId), ("viewed_date", .str nowIso),
   ("user_id", userIdVal u)]

/-- The POST `/:id` handler of `src/routes/property_views.js`:
trim the `:id` parameter and answer 400 when it is empty; otherwise insert
the payload (throwing — answering 500 — on any insert error) and then answer
the exact count of rows with that `property_id`. -/
def recordView (env : StoreEnv) (nowIso : String) (req : RVRequest)
    (s : PVStore) : RVResult :=
  let propertyId := jsTrim req.id
  if propertyId = "" then
    { response := .badRequest, store := s, ops := [] }
  else
    let payload := recordViewPayload propertyId nowIso req.user
    match tableInsert env payload s with
    | .error _ =>
        { response := .serverError, store := s, ops := [.insertOp payload] }
    | .ok s' =>
        { response := .ok (countViews propertyId s'), store := s',
          ops := [.insertOp payload, .countOp propertyId] }

/-- The GET `/:id` handler of `src/routes/property_views.js`: trim the `:id`
parameter, 400 when empty, otherwise the exact count of rows with that
`property_id`; no write is issued. -/
def getViewCount (req : RVRequest) (s : PVStore) : RVResult :=
  let propertyId := jsTrim req.id
  if propertyId = "" then
    { response := .badRequest, store := s, ops := [] }
  else
    { response := .ok (countViews propertyId s), store := s,
      ops := [.countOp propertyId] }

/-- The property-views router is mounted in `src/index.js` as a public route
(`app.use('/api/property-views', propertyViewsRouter)`) with no
authentication middleware, and the router installs none itself, so no
middleware ever sets `req.user`: a request reaches the handler with
`user = none`. -/
def recordViewPublic (env : StoreEnv) (nowIso : String) (id : String)
    (s : PVStore) : RVResult :=
  recordView env nowIso { id := id, user := none } s

/-! ### Dashboard stats cache (`src/routes/dashboard.js`) -/

/-- The aggregate payload the `/stats` handler builds:
`{ totalProperties, activeUsers, pendingInquiries }`. -/
structure StatsData where
  totalProperties : Nat
  activeUsers : Nat
  pendingInquiries : Nat
deriving DecidableEq, Repr

/-- The module-level cache slot:
`const statsCache = { data: null, timestamp: 0, cacheDuration: 4000 }`. -/
structure StatsCache where
  data : Option StatsData
  timestamp : Int
deriving DecidableEq, Repr

/-- `statsCache.cacheDuration`: 4 seconds, in milliseconds. -/
def cacheDuration : Int := 4000

/-- The shape of one settled Supabase count query: a possible per-query
error, and the reported count (`count` may be absent). -/
structure QueryResult where
  error : Option String
  count : Option Nat
deriving DecidableEq, Repr

/-- The per-component handling in the handler: on a per-query error the
component keeps its initial value 0, otherwise it is `count || 0`. -/
def countOrZero (q : QueryResult) : Nat :=
  if q.error.isSome then 0 else q.count.getD 0

/-- The four parallel count queries of the `/stats` handler, in order:
verified properties, active profiles, pending property inquiries, pending
contact submissions. -/
structure QuadResults where
  properties : QueryResult
  users : QueryResult
  propertyInquiries : QueryResult
  contactSubmissions : QueryResult
deriving DecidableEq, Repr

/-- `responseData` as the handler assembles it: each component defaulted to
0 on a per-query error, and
`pendingInquiries = pendingPropertyInquiries + pendingContactSubmissions`. -/
def assembleStats (q : QuadResults) : StatsData :=
  { totalProperties := countOrZero q.properties
    activeUsers := countOrZero q.users
    pendingInquiries :=
      countOrZero q.propertyInquiries + countOrZero q.contactSubmissions }

/-- Observable outcome of one `/stats` request: the cached payload served on
a cache hit, a freshly computed payload, or the 500 failure response of the
outer catch. -/
inductive StatsOutcome
  | fromCache (d : StatsData)
  | fresh (d : StatsData)
  | failure
deriving DecidableEq, Repr

/-- The cache-miss path of the `/stats` handler: `await Promise.all` of the
four count queries either rejects — the inner catch rethrows and the outer
catch answers 500, leaving the cache untouched — or resolves, in which case
`responseData` is assembled, stored in the cache with `timestamp = now`, and
sent. -/
def freshCompute (cache : StatsCache) (now : Int)
    (compute : Except Unit QuadResults) : StatsOutcome × StatsCache :=
  match compute with
  | .error _ => (.failure, cache)
  | .ok q =>
      let d := assembleStats q
      (.fresh d, { data := some d, timestamp := now })

/-- The GET `/stats` handler: when
`statsCache.data && (now - statsCache.timestamp < statsCache.cacheDuration)`
the cached payload is returned and no query runs; otherwise the four count
queries run (`freshCompute`).  `now` is `Date.now()` captured at the start of
the request, and it is this value that is stored as the new timestamp. -/
def statsHandler (cache : StatsCache) (now : Int)
    (compute : Except Unit QuadResults) : StatsOutcome × StatsCache :=
  match cache.data with
  | some d =>
      if now - cache.timestamp < cacheDuration then (.fromCache d, cache)
      else freshCompute cache now compute
  | none => freshCompute cache now compute

/-! ### Store invariant -/

/-- The dedup invariant of the spec: no two stored rows agree on the
`(property_id, ip_address, viewed_date)` triple. -/
def UniqueTriples (s : PVStore) : Prop :=
  s.Pairwise (fun a b => sameTriple a b = false)

/-- Store states reachable through the storage layer: the empty table, and
the result of any successful storage-layer insert into a reachable state.
(A failed insert leaves the state unchanged, so it adds nothing.) -/
inductive Reach : PVStore → Prop
  | empty : Reach []
  | insert (r : PVRow) {s s' : PVStore} :
      Reach s → storeInsertRow r s = .ok s' → Reach s'

/-! ### Helper lemmas -/

/-- The payload the POST handler builds names a `user_id` column, which
`public.property_views` does not have (the DDL has `profiles_id`), so the
record store rejects every such insert as addressing an unknown column.
(Had that name been accepted, the insert would still be rejected: the
payload supplies no value for the NOT NULL `ip_address` column.) -/
theorem tableInsert_route_payload (env : StoreEnv) (pid nowIso : String)
    (u : Option UserInfo) (s : PVStore) :
    tableInsert env (recordViewPayload pid nowIso u) s = .error .unknownColumn := by
  simp [tableInsert, recordViewPayload, pvTableColumns]

/-- `recordView` never changes the store: the empty-id branch does not reach
the store, and the insert is always rejected. -/
theorem recordView_store_eq (env : StoreEnv) (nowIso : String)
    (req : RVRequest) (s : PVStore) : (recordView env nowIso req s).store = s := by
  unfold recordView
  by_cases h : jsTrim req.id = ""
  · simp [h]
  · simp [h, tableInsert_route_payload]

/-- A successful storage-layer insert preserves the dedup invariant: the
unique index rejects any row whose triple is already present. -/
theorem storeInsertRow_preserves (r : PVRow) (s s' : PVStore)
    (hu : UniqueTriples s) (h : storeInsertRow r s = .ok s') : UniqueTriples s' := by
  unfold storeInsertRow at h
  by_cases hc : s.any (fun x => sameTriple x r)
  · simp [hc] at h
  · simp [hc] at h
    subst h
    unfold UniqueTriples at *
    rw [List.pairwise_append]
    refine ⟨hu, List.pairwise_singleton _ _, ?_⟩
    intro a ha b hb
    simp at hb
    subst hb
    simp [List.any_eq_true] at hc
    exact hc a ha

/-- Every store state reachable through the storage layer satisfies the
dedup invariant. -/
theorem reach_unique (s : PVStore) (h : Reach s) : UniqueTriples s := by
  induction h with
  | empty => exact List.Pairwise.nil
  | insert r hr hins ih => exact storeInsertRow_preserves _ _ _ ih hins

/-- The `user_id` field of the payload the POST handler builds is exactly
`req.user ? req.user.userId : null`. -/
theorem payload_lookup_userId (pid nowIso : String) (u : Option UserInfo) :
    (recordViewPayload pid nowIso u).lookup "user_id" = some (userIdVal u) := by
  simp [recordViewPayload, List.lookup]

/-! ### Claim C1 -/

/-- C1, counterexample.  With a row for the triple
`("p1", "1.2.3.4", "2024-01-02")` already stored, a `recordView` call for
`p1` on that day answers the 500 failure response, not the success-with-count
(`ok 1`) the claim requires: the handler runs `throw insertError` on every
store insert error instead of absorbing it. -/
theorem C1_counterexample :
    (recordView ⟨"g1", "t"⟩ "2024-01-02T09:00:00.000Z" ⟨"p1", none⟩
        [⟨"i0", "p1", none, "2024-01-02T08:00:00.000Z", "1.2.3.4", "2024-01-02"⟩]).response
      = RVResponse.serverError ∧
    RVResponse.serverError ≠ RVResponse.ok 1 := by decide

/-- C1, amended: when the `(propertyId, viewerIp, viewedDate)` triple already
has a stored row, `recordView` indeed creates no second row (the store is
left unchanged), but the operation does not complete successfully: the
handler propagates every insert error as a 500 failure response, returning
no count.  (With the repository's schema the insert in fact always fails —
the payload names the nonexistent `user_id` column and supplies no
`ip_address` — so the conflict case is subsumed by a general insert
failure.) -/
theorem C1_amended (env : StoreEnv) (nowIso : String) (req : RVRequest)
    (s : PVStore) (ip day : String)
    (hid : jsTrim req.id ≠ "")
    (_hdup : ∃ r ∈ s, r.property_id = jsTrim req.id ∧ r.ip_address = ip ∧
      r.viewed_date = day) :
    (recordView env nowIso req s).store = s ∧
    (recordView env nowIso req s).response = .serverError := by
  unfold recordView
  simp [hid, tableInsert_route_payload]

/-- C1, witness: the amended statement evaluated at a store already holding
the row for `("p1", "1.2.3.4", "2024-01-02")`. -/
theorem C1_witness :
    (recordView ⟨"g1", "2024-01-02T09:00:00.100Z"⟩ "2024-01-02T09:00:00.000Z"
        ⟨"p1", none⟩
        [⟨"i0", "p1", none, "2024-01-02T08:00:00.000Z", "1.2.3.4", "2024-01-02"⟩]).store
      = [⟨"i0", "p1", none, "2024-01-02T08:00:00.000Z", "1.2.3.4", "2024-01-02"⟩] ∧
    (recordView ⟨"g1", "2024-01-02T09:00:00.100Z"⟩ "2024-01-02T09:00:00.000Z"
        ⟨"p1", none⟩
        [⟨"i0", "p1", none, "2024-01-02T08:00:00.000Z", "1.2.3.4", "2024-01-02"⟩]).response
      = .serverError :=
  C1_amended _ _ _ _ "1.2.3.4" "2024-01-02" (by decide)
    ⟨⟨"i0", "p1", none, "2024-01-02T08:00:00.000Z", "1.2.3.4", "2024-01-02"⟩, by decide⟩

/-! ### Claim C2 -/

/-- C2, counterexample.  Two `recordView` calls for the identical triple
(property `p1`, same day, and necessarily the same absent IP) starting from
the empty store leave zero persisted rows, not exactly one: every insert the
route issues is rejected by the schema. -/
theorem C2_counterexample :
    ((recordViewPublic ⟨"g2", "t2"⟩ "2024-01-03T10:00:00.000Z" "p1"
        (recordViewPublic ⟨"g1", "t1"⟩ "2024-01-03T09:00:00.000Z" "p1" []).store).store).length
      = 0 ∧ (0 : Nat) ≠ 1 := by decide

/-- C2, amended: the storage-layer uniqueness half of the claim holds — every
store state reachable through the storage-layer insert (the unique index
`unique_ip_view_24h`, not application-level locking) satisfies the
at-most-one-row-per-triple invariant — but N `recordView` calls for an
identical triple leave zero new rows rather than exactly one, since each
call leaves the store unchanged (its insert payload is rejected by the
schema). -/
theorem C2_amended :
    (∀ s : PVStore, Reach s → UniqueTriples s) ∧
    (∀ (env : StoreEnv) (nowIso : String) (req : RVRequest) (s : PVStore),
      (recordView env nowIso req s).store = s) :=
  ⟨reach_unique, recordView_store_eq⟩

/-- C2, witness: the invariant evaluated on a concrete reachable one-row
store, and a concrete `recordView` call leaving the empty store empty. -/
theorem C2_witness :
    UniqueTriples [⟨"i0", "p1", none, "t", "1.2.3.4", "2024-01-02"⟩] ∧
    (recordView ⟨"g", "t"⟩ "2024-01-03T00:00:00.000Z" ⟨"p1", none⟩ []).store = [] :=
  ⟨C2_amended.1 _ (Reach.insert ⟨"i0", "p1", none, "t", "1.2.3.4", "2024-01-02"⟩
      Reach.empty rfl),
   C2_amended.2 _ _ _ _⟩

/-! ### Claim C3 -/

/-- C3: refuted by evaluation — the code is the slip.  The insert payload
the handler sends for a valid request is
`{property_id, viewed_date: <full ISO timestamp>, user_id: null}`: it
carries no `ip_address` at all (the handler never reads the client address),
and `viewed_date` is handed the full timestamp, not a date-only value.
Against the repository's own DDL (`ip_address text NOT NULL`, no `user_id`
column) the insert is rejected, the handler answers 500, and no row is
created — no `PropertyView` row ever carries a viewer IP. -/
theorem C3_eval :
    (recordViewPublic ⟨"gen-uuid", "2024-01-01T10:00:00.001Z"⟩
        "2024-01-01T10:00:00.000Z" "p1" []).ops
      = [.insertOp [("property_id", .str "p1"),
          ("viewed_date", .str "2024-01-01T10:00:00.000Z"),
          ("user_id", .null)]] ∧
    ([("property_id", ColValue.str "p1"),
      ("viewed_date", ColValue.str "2024-01-01T10:00:00.000Z"),
      ("user_id", ColValue.null)] : InsertPayload).lookup "ip_address" = none ∧
    (recordViewPublic ⟨"gen-uuid", "2024-01-01T10:00:00.001Z"⟩
        "2024-01-01T10:00:00.000Z" "p1" []).response = .serverError ∧
    (recordViewPublic ⟨"gen-uuid", "2024-01-01T10:00:00.001Z"⟩
        "2024-01-01T10:00:00.000Z" "p1" []).store = [] := by decide

/-! ### Claim C4 -/

/-- C4: the success path of `recordView` is unreachable — the code is the
slip.  Even with a stored row for property `p9` (so the all-time count is
1), a valid `recordView` call answers the 500 failure response and returns
no count at all, because its insert is rejected by the schema before the
count query runs.  The count the success path would have returned is the
all-time `count(*) where property_id = P` (second conjunct evaluates that
query on the same store). -/
theorem C4_eval :
    (recordView ⟨"g", "t0"⟩ "2024-05-05T12:00:00.000Z" ⟨"p9", some ⟨"u1"⟩⟩
        [⟨"a", "p9", none, "2024-05-04T00:00:00.000Z", "7.7.7.7", "2024-05-04"⟩]).response
      = .serverError ∧
    countViews "p9"
        [⟨"a", "p9", none, "2024-05-04T00:00:00.000Z", "7.7.7.7", "2024-05-04"⟩] = 1 := by
  decide

/-! ### Claim C5 -/

/-- C5, counterexample.  A `recordView` request with a valid property id and
no viewer IP (the handler has no IP input at all — it never reads one) is
not rejected with a validation error: the response is not the 400
`Invalid property ID` answer, and the store insert is attempted (the
operation trace is nonempty). -/
theorem C5_counterexample :
    (recordViewPublic ⟨"g", "t"⟩ "2024-02-02T00:00:00.000Z" "p2" []).response
      ≠ RVResponse.badRequest ∧
    (recordViewPublic ⟨"g", "t"⟩ "2024-02-02T00:00:00.000Z" "p2" []).ops ≠ [] := by
  decide

/-- C5, amended: an empty (or all-whitespace) property id is rejected with
the 400 validation response and no store operation is attempted; but the
viewer IP is never validated — the handler never reads an IP — so a request
with a missing IP and a nonempty id is not rejected by validation and its
first store operation is the insert of the route's payload. -/
theorem C5_amended :
    (∀ (env : StoreEnv) (nowIso : String) (req : RVRequest) (s : PVStore),
      jsTrim req.id = "" →
        recordView env nowIso req s = ⟨.badRequest, s, []⟩) ∧
    (∀ (env : StoreEnv) (nowIso : String) (req : RVRequest) (s : PVStore),
      jsTrim req.id ≠ "" →
        (recordView env nowIso req s).ops.head?
          = some (.insertOp (recordViewPayload (jsTrim req.id) nowIso req.user))) := by
  constructor
  · intro env nowIso req s h
    simp [recordView, h]
  · intro env nowIso req s h
    simp [recordView, h, tableInsert_route_payload]

/-- C5, witness: the amended statement evaluated at a whitespace-only id
(400, no store call) and at the id `p2` (insert attempted). -/
theorem C5_witness :
    recordView ⟨"g", "t"⟩ "2024-02-02T00:00:00.000Z" ⟨"   ", none⟩ []
      = ⟨.badRequest, [], []⟩ ∧
    (recordView ⟨"g", "t"⟩ "2024-02-02T00:00:00.000Z" ⟨"p2", none⟩ []).ops.head?
      = some (.insertOp (recordViewPayload (jsTrim "p2") "2024-02-02T00:00:00.000Z" none)) :=
  ⟨C5_amended.1 _ _ _ _ (by decide), C5_amended.2 _ _ _ _ (by decide)⟩

/-! ### Claim C6 -/

/-- C6: confirmed.  For every request and store state, `getViewCount` leaves
the store unchanged and issues no insert operation, and for a nonempty
(trimmed) property id it answers exactly the number of stored rows whose
`property_id` equals that id. -/
theorem C6_getViewCount (req : RVRequest) (s : PVStore) :
    (getViewCount req s).store = s ∧
    (∀ op ∈ (getViewCount req s).ops, ∀ p : InsertPayload, op ≠ .insertOp p) ∧
    (jsTrim req.id ≠ "" →
      (getViewCount req s).response
        = .ok ((s.filter (fun r => r.property_id = jsTrim req.id)).length)) := by
  unfold getViewCount
  by_cases h : jsTrim req.id = ""
  · simp [h]
  · simp [h, countViews]

/-- C6, witness: on a concrete three-row store, `getViewCount " p1 "` answers
2, the number of rows for property `p1`. -/
theorem C6_witness :
    (getViewCount ⟨" p1 ", none⟩
        [⟨"a", "p1", none, "t1", "1.1.1.1", "2024-01-01"⟩,
         ⟨"b", "p2", none, "t2", "1.1.1.1", "2024-01-01"⟩,
         ⟨"c", "p1", some "u", "t3", "2.2.2.2", "2024-01-02"⟩]).response = .ok 2 := by
  have h := C6_getViewCount ⟨" p1 ", none⟩
    [⟨"a", "p1", none, "t1", "1.1.1.1", "2024-01-01"⟩,
     ⟨"b", "p2", none, "t2", "1.1.1.1", "2024-01-01"⟩,
     ⟨"c", "p1", some "u", "t3", "2.2.2.2", "2024-01-02"⟩]
  rw [h.2.2 (by decide)]
  decide

/-! ### Claim C7 -/

/-- C7: confirmed.  With the 4000 ms TTL: a present payload younger than the
TTL is served from the cache and the four count queries are not invoked;
otherwise (no payload, or a stale one) they are invoked and a successful
result is stored with `computedAt = now`; hence a second call within the TTL
of a successful first call is served from the cache (whatever its own
compute would do), and a call at or past the TTL recomputes. -/
theorem C7_cache (cache : StatsCache) (now t2 t3 : Int)
    (q q3 : QuadResults) (c2 : Except Unit QuadResults) (d : StatsData) :
    (cache.data = some d → now - cache.timestamp < cacheDuration →
      statsHandler cache now (.ok q) = (.fromCache d, cache)) ∧
    (cache.data = none →
      statsHandler cache now (.ok q)
        = (.fresh (assembleStats q), ⟨some (assembleStats q), now⟩)) ∧
    (cache.data = some d → cacheDuration ≤ now - cache.timestamp →
      statsHandler cache now (.ok q)
        = (.fresh (assembleStats q), ⟨some (assembleStats q), now⟩)) ∧
    (cache.data = none → t2 - now < cacheDuration →
      statsHandler (statsHandler cache now (.ok q)).2 t2 c2
        = (.fromCache (assembleStats q), (statsHandler cache now (.ok q)).2)) ∧
    (cache.data = none → cacheDuration ≤ t3 - now →
      statsHandler (statsHandler cache now (.ok q)).2 t3 (.ok q3)
        = (.fresh (assembleStats q3), ⟨some (assembleStats q3), t3⟩)) := by
  refine ⟨?_, ?_, ?_, ?_, ?_⟩
  · intro hd hf
    simp [statsHandler, hd, hf]
  · intro hd
    simp [statsHandler, hd, freshCompute]
  · intro hd hs
    simp [statsHandler, hd, freshCompute, not_lt.mpr hs]
  · intro hd hf
    simp [statsHandler, hd, freshCompute, hf]
  · intro hd hs
    simp [statsHandler, hd, freshCompute, not_lt.mpr hs]

/-- C7, witness: a concrete miss-compute-store at `now = 10`, a hit at
`t2 = 100` (within the 4000 ms TTL, its own compute failing and plainly not
consulted), and a recompute at `t3 = 5000` (past the TTL). -/
theorem C7_witness :
    statsHandler ⟨none, 0⟩ 10
        (.ok ⟨⟨none, some 5⟩, ⟨none, some 3⟩, ⟨none, some 2⟩, ⟨none, some 4⟩⟩)
      = (.fresh (assembleStats ⟨⟨none, some 5⟩, ⟨none, some 3⟩, ⟨none, some 2⟩, ⟨none, some 4⟩⟩),
         ⟨some (assembleStats ⟨⟨none, some 5⟩, ⟨none, some 3⟩, ⟨none, some 2⟩, ⟨none, some 4⟩⟩), 10⟩) ∧
    statsHandler
        (statsHandler ⟨none, 0⟩ 10
          (.ok ⟨⟨none, some 5⟩, ⟨none, some 3⟩, ⟨none, some 2⟩, ⟨none, some 4⟩⟩)).2
        100 (.error ())
      = (.fromCache (assembleStats ⟨⟨none, some 5⟩, ⟨none, some 3⟩, ⟨none, some 2⟩, ⟨none, some 4⟩⟩),
         (statsHandler ⟨none, 0⟩ 10
           (.ok ⟨⟨none, some 5⟩, ⟨none, some 3⟩, ⟨none, some 2⟩, ⟨none, some 4⟩⟩)).2) ∧
    statsHandler
        (statsHandler ⟨none, 0⟩ 10
          (.ok ⟨⟨none, some 5⟩, ⟨none, some 3⟩, ⟨none, some 2⟩, ⟨none, some 4⟩⟩)).2
        5000 (.ok ⟨⟨none, some 6⟩, ⟨none, some 6⟩, ⟨none, some 6⟩, ⟨none, some 6⟩⟩)
      = (.fresh (assembleStats ⟨⟨none, some 6⟩, ⟨none, some 6⟩, ⟨none, some 6⟩, ⟨none, some 6⟩⟩),
         ⟨some (assembleStats ⟨⟨none, some 6⟩, ⟨none, some 6⟩, ⟨none, some 6⟩, ⟨none, some 6⟩⟩), 5000⟩) := by
  have h := C7_cache ⟨none, 0⟩ 10 100 5000
    ⟨⟨none, some 5⟩, ⟨none, some 3⟩, ⟨none, some 2⟩, ⟨none, some 4⟩⟩
    ⟨⟨none, some 6⟩, ⟨none, some 6⟩, ⟨none, some 6⟩, ⟨none, some 6⟩⟩
    (.error ()) ⟨0, 0, 0⟩
  exact ⟨h.2.1 rfl, h.2.2.2.1 rfl (by decide), h.2.2.2.2 rfl (by decide)⟩

/-! ### Claim C8 -/

/-- C8: confirmed.  When the batch of count queries fails, the cache slot is
left exactly as it was (first conjunct, for every prior cache state); when
no prior payload exists the 500 failure is the response (second conjunct);
and a prior payload still within its TTL remains servable after the failed
call — a later call within the TTL of the original `computedAt` serves it
from the unchanged cache even if its own compute would fail too (third
conjunct). -/
theorem C8_failure (cache : StatsCache) (now : Int) :
    (statsHandler cache now (.error ())).2 = cache ∧
    (cache.data = none → (statsHandler cache now (.error ())).1 = .failure) ∧
    (∀ (d : StatsData) (t2 : Int), cache.data = some d →
      t2 - cache.timestamp < cacheDuration →
      statsHandler (statsHandler cache now (.error ())).2 t2 (.error ())
        = (.fromCache d, cache)) := by
  refine ⟨?_, ?_, ?_⟩
  · match hc : cache.data with
    | none => simp [statsHandler, hc, freshCompute]
    | some d =>
        by_cases hf : now - cache.timestamp < cacheDuration
        · simp [statsHandler, hc, hf]
        · simp [statsHandler, hc, hf, freshCompute]
  · intro hd
    simp [statsHandler, hd, freshCompute]
  · intro d t2 hd hf
    have h2 : (statsHandler cache now (.error ())).2 = cache := by
      by_cases hf0 : now - cache.timestamp < cacheDuration
      · simp [statsHandler, hd, hf0]
      · simp [statsHandler, hd, hf0, freshCompute]
    rw [h2]
    simp [statsHandler, hd, hf]

/-- C8, witness: a failed compute on the empty cache propagates the failure
and leaves the slot empty; a failed stale-refresh attempt at `now = 9999` on
a cache computed at 1000 leaves the payload `⟨1, 2, 3⟩` servable at
`t2 = 1500`. -/
theorem C8_witness :
    (statsHandler ⟨none, 0⟩ 5 (.error ())).2 = (⟨none, 0⟩ : StatsCache) ∧
    (statsHandler ⟨none, 0⟩ 5 (.error ())).1 = .failure ∧
    statsHandler (statsHandler ⟨some ⟨1, 2, 3⟩, 1000⟩ 9999 (.error ())).2 1500 (.error ())
      = (.fromCache ⟨1, 2, 3⟩, (⟨some ⟨1, 2, 3⟩, 1000⟩ : StatsCache)) :=
  ⟨(C8_failure ⟨none, 0⟩ 5).1,
   (C8_failure ⟨none, 0⟩ 5).2.1 rfl,
   (C8_failure ⟨some ⟨1, 2, 3⟩, 1000⟩ 9999).2.2 ⟨1, 2, 3⟩ 1500 rfl (by decide)⟩

/-! ### Claim C9 -/

/-- C9: confirmed.  When the parallel batch resolves but one or more of the
four count queries carries a per-query error, the handler still answers
success with the assembled payload, each failed component contributes 0,
`pendingInquiries` is the sum of the pending property-inquiry and pending
contact-submission components, and the (possibly degraded) payload is stored
with `computedAt = now` and served from the cache for the full TTL. -/
theorem C9_degraded (cache : StatsCache) (now t2 : Int) (q : QuadResults)
    (c2 : Except Unit QuadResults)
    (hmiss : cache.data = none)
    (_herr : q.properties.error.isSome ∨ q.users.error.isSome ∨
      q.propertyInquiries.error.isSome ∨ q.contactSubmissions.error.isSome) :
    statsHandler cache now (.ok q)
      = (.fresh (assembleStats q), ⟨some (assembleStats q), now⟩) ∧
    (q.properties.error.isSome → (assembleStats q).totalProperties = 0) ∧
    (q.users.error.isSome → (assembleStats q).activeUsers = 0) ∧
    (assembleStats q).pendingInquiries
      = countOrZero q.propertyInquiries + countOrZero q.contactSubmissions ∧
    (t2 - now < cacheDuration →
      statsHandler ⟨some (assembleStats q), now⟩ t2 c2
        = (.fromCache (assembleStats q), ⟨some (assembleStats q), now⟩)) := by
  refine ⟨?_, ?_, ?_, rfl, ?_⟩
  · simp [statsHandler, hmiss, freshCompute]
  · intro he
    simp [assembleStats, countOrZero, he]
  · intro he
    simp [assembleStats, countOrZero, he]
  · intro hf
    simp [statsHandler, hf]

/-- C9, witness: with the pending-property-inquiries query failing and the
other three reporting 5, 3 and 7, the handler answers success, the assembled
payload is `⟨5, 3, 0 + 7⟩ = ⟨5, 3, 7⟩`, and it is cached at `now = 50`. -/
theorem C9_witness :
    statsHandler ⟨none, 0⟩ 50
        (.ok ⟨⟨none, some 5⟩, ⟨none, some 3⟩, ⟨some "db error", some 9⟩, ⟨none, some 7⟩⟩)
      = (.fresh (assembleStats ⟨⟨none, some 5⟩, ⟨none, some 3⟩, ⟨some "db error", some 9⟩, ⟨none, some 7⟩⟩),
         ⟨some (assembleStats ⟨⟨none, some 5⟩, ⟨none, some 3⟩, ⟨some "db error", some 9⟩, ⟨none, some 7⟩⟩), 50⟩) ∧
    assembleStats ⟨⟨none, some 5⟩, ⟨none, some 3⟩, ⟨some "db error", some 9⟩, ⟨none, some 7⟩⟩
      = ⟨5, 3, 7⟩ :=
  ⟨(C9_degraded ⟨none, 0⟩ 50 2000
      ⟨⟨none, some 5⟩, ⟨none, some 3⟩, ⟨some "db error", some 9⟩, ⟨none, some 7⟩⟩
      (.error ()) rfl (by decide)).1,
   by decide⟩

/-! ### Claim C10 -/

/-- C10, counterexample.  A `recordView` request through the public mounting
(no authentication middleware, `req.user` unset) stores no row at all — the
insert is rejected by the schema and the handler answers 500 — so in
particular no stored row with a null `user_id` results from the request, as
the claim asserts one does. -/
theorem C10_counterexample :
    (recordViewPublic ⟨"g", "t"⟩ "2024-03-03T03:03:03.000Z" "p3" []).store = [] ∧
    (recordViewPublic ⟨"g", "t"⟩ "2024-03-03T03:03:03.000Z" "p3" []).response
      = .serverError := by decide

/-- C10, amended: because `src/index.js` mounts the property-views router
without the authentication middleware, `req.user` is never set, so every
insert the handler attempts carries `user_id = null`; but the insert is
rejected by the store, so no row is actually persisted (the store is left
unchanged). -/
theorem C10_amended (env : StoreEnv) (nowIso id : String) (s : PVStore) :
    ((recordViewPublic env nowIso id s).ops.all
      (fun op => match op with
        | .insertOp p =>
            match p.lookup "user_id" with
            | some .null => true
            | _ => false
        | .countOp _ => true)) = true ∧
    (recordViewPublic env nowIso id s).store = s := by
  constructor
  · unfold recordViewPublic recordView
    by_cases h : jsTrim id = ""
    · simp [h]
    · simp [h, tableInsert_route_payload, payload_lookup_userId, userIdVal]
  · exact recordView_store_eq _ _ _ _

end RealEstate
